import Mathlib

/-!
Shallow embedding of `src/openssl/src/asn1.rs`, the safe-access layer over
OpenSSL ASN.1 primitive values (times, strings, integers, object identifiers,
octet strings, bit strings).

The wrapper logic of `asn1.rs` is translated function by function.  The native
library calls (`ASN1_INTEGER_set`, `OBJ_nid2obj`, ...) and the crate-level
helpers that live outside the analyzed file (`cvt`, `cvt_p`, `ErrorStack`,
`Nid`, `OpensslString`) are external collaborators; they are modelled from the
specification, with each such definition carrying a doc comment saying so.
Native outcomes that depend on the runtime (allocation failure, the current
time, the buffer a conversion allocates) enter as explicit parameters, so every
wrapper is a total function of its inputs and the native oracle's answer.
-/

namespace OpensslAsn1

/-- Modelled from the spec: a raw native pointer as handed across the FFI
boundary — either the null failure sentinel or a handle carrying the native
object's content.  (The native library and raw pointers are not under `src/`.) -/
inductive Ptr (α : Type) : Type where
  | null : Ptr α
  | handle : α → Ptr α
  deriving DecidableEq

/-- Modelled from the spec: the error-stack snapshot fetched by
`ErrorStack::get()` immediately after a failing native call (`error.rs` is not
under `src/`).  Its contents are opaque to this layer. -/
structure ErrorStack where
  codes : List Nat
  deriving DecidableEq

/-- Modelled from the spec: the crate helper `cvt` (not under `src/`): a
zero-or-negative native return code is the failure sentinel and is turned into
a structured error carrying the error-stack snapshot. -/
def cvt (r : Int) (st : ErrorStack) : Except ErrorStack Int :=
  if r ≤ 0 then Except.error st else Except.ok r

/-- Modelled from the spec: the crate helper `cvt_p` (not under `src/`): a null
native pointer is the failure sentinel and is turned into a structured error
carrying the error-stack snapshot. -/
def cvt_p {α : Type} (p : Ptr α) (st : ErrorStack) : Except ErrorStack α :=
  match p with
  | Ptr.null => Except.error st
  | Ptr.handle a => Except.ok a

/-- Two's-complement wraparound into the 64-bit signed range, the semantics of
storing a value in a C `long` on the 64-bit targets this crate supports. -/
def wrap64 (v : Int) : Int := (v + 2 ^ 63) % 2 ^ 64 - 2 ^ 63

/-- The `as usize` cast applied to a C `int`: two's-complement reinterpretation
into the unsigned 64-bit range (so a negative length becomes a huge size). -/
def usizeCast (v : Int) : Nat := (v % 2 ^ 64).toNat

/-! ## ASN1_INTEGER -/

/-- Native content of an `ASN1_INTEGER`: the stored `long` value.
(Arbitrary-precision values outside the `long` range never arise here because
the only writer in this layer stores a 32-bit input.) -/
structure Asn1IntegerNative where
  value : Int
  deriving DecidableEq

/-- Modelled from the spec: native `ASN1_INTEGER_set` stores the `long`
argument in the integer and returns 1 on success; on failure (allocation,
reported by the oracle flag `ok`) it returns 0 and leaves the value unchanged. -/
def ASN1_INTEGER_set (s : Asn1IntegerNative) (v : Int) (ok : Bool) :
    Int × Asn1IntegerNative :=
  if ok then (1, { value := wrap64 v }) else (0, s)

/-- Modelled from the spec: native `ASN1_INTEGER_get` returns the stored value
as a `long`. -/
def ASN1_INTEGER_get (s : Asn1IntegerNative) : Int := s.value

/-- `Asn1IntegerRef::get`: `ASN1_INTEGER_get(self.as_ptr()) as i64`.  The
`as i64` cast of a 64-bit `long` is the identity. -/
def Asn1IntegerRef.get (s : Asn1IntegerNative) : Int := ASN1_INTEGER_get s

/-- `Asn1IntegerRef::set`: `cvt(ASN1_INTEGER_set(self.as_ptr(), value as c_long)).map(|_| ())`.
The mutated native integer is returned explicitly (state passing); the `i32 → c_long`
cast is value-preserving, so `v` carries the 32-bit input's value. -/
def Asn1IntegerRef.set (s : Asn1IntegerNative) (v : Int) (ok : Bool)
    (st : ErrorStack) : Except ErrorStack Asn1IntegerNative :=
  let r := ASN1_INTEGER_set s v ok
  (cvt r.1 st).map (fun _ => r.2)

/-! ## ASN1_BIT_STRING -/

/-- Native content of an `ASN1_BIT_STRING`: the set of bit indices that are 1,
kept as a list. -/
structure Asn1BitStringNative where
  bits : List Int
  deriving DecidableEq

/-- Modelled from the spec: native `ASN1_BIT_STRING_get_bit` returns nonzero
(1) exactly when the in-range zero-based bit `n` is set, and 0 otherwise
(including out-of-range indices). -/
def ASN1_BIT_STRING_get_bit (s : Asn1BitStringNative) (n : Int) : Int :=
  if 0 ≤ n ∧ n ∈ s.bits then 1 else 0

/-- Modelled from the spec: native `ASN1_BIT_STRING_set_bit` sets bit `n` when
`v` is nonzero and clears it when `v` is 0, returning 1; it returns the failure
sentinel 0 for a negative index or when allocation fails (oracle flag `ok`). -/
def ASN1_BIT_STRING_set_bit (s : Asn1BitStringNative) (n : Int) (v : Int)
    (ok : Bool) : Int × Asn1BitStringNative :=
  if ok = true ∧ 0 ≤ n then
    (1, if v = 0 then { bits := s.bits.filter (fun m => m != n) }
        else { bits := n :: s.bits })
  else (0, s)

/-- `Asn1BitStringRef::get_bit`: `ASN1_BIT_STRING_get_bit(self.as_ptr(), n) != 0`. -/
def Asn1BitStringRef.get_bit (s : Asn1BitStringNative) (n : Int) : Bool :=
  ASN1_BIT_STRING_get_bit s n != 0

/-- `Asn1BitStringRef::set_bit`:
`cvt(ASN1_BIT_STRING_set_bit(self.as_ptr(), n, if value {1} else {0})).map(|_| ())`,
with the mutated native bit string returned explicitly. -/
def Asn1BitStringRef.set_bit (s : Asn1BitStringNative) (n : Int) (value : Bool)
    (ok : Bool) (st : ErrorStack) : Except ErrorStack Asn1BitStringNative :=
  let r := ASN1_BIT_STRING_set_bit s n (if value then 1 else 0) ok
  (cvt r.1 st).map (fun _ => r.2)

/-! ## ASN1_STRING -/

/-- Native content of an `ASN1_STRING`: the byte buffer its data pointer
addresses and the value of its length field (a C `int`, so possibly negative
in a corrupt handle). -/
structure Asn1StringNative where
  data : List Nat
  length : Int
  deriving DecidableEq

/-- Modelled from the spec: native `ASN1_STRING_length` reads the current
length field of the handle. -/
def ASN1_STRING_length (s : Asn1StringNative) : Int := s.length

/-- Modelled from the spec: native `ASN1_STRING_data` (or, on newer library
versions, `ASN1_STRING_get0_data`) returns the data pointer; the two call
forms are presented as one version-independent accessor. -/
def ASN1_STRING_data (s : Asn1StringNative) : List Nat := s.data

/-- Modelled from the spec: `slice::from_raw_parts(ptr, len)` yields a view of
exactly `len` bytes starting at `ptr` (reads past the buffer are a memory
error, modelled as reading 0). -/
def readBytes (data : List Nat) (n : Nat) : List Nat :=
  (List.range n).map (fun i => data.getD i 0)

/-- `Asn1StringRef::len`: `ASN1_STRING_length(self.as_ptr()) as usize` —
queried from the native handle on every call, nothing cached. -/
def Asn1StringRef.len (s : Asn1StringNative) : Nat :=
  usizeCast (ASN1_STRING_length s)

/-- `Asn1StringRef::as_slice`:
`slice::from_raw_parts(ASN1_STRING_data(self.as_ptr()), self.len())`. -/
def Asn1StringRef.as_slice (s : Asn1StringNative) : List Nat :=
  readBytes (ASN1_STRING_data s) (Asn1StringRef.len s)

/-- Modelled from the spec: `OpensslString` (`string.rs`, not under `src/`)
takes ownership of a native buffer pointer. -/
structure OpensslString where
  ptr : Ptr (List Nat)
  deriving DecidableEq

/-- Modelled from the spec: `OpensslString::from_ptr` wraps the handle it is
given, taking ownership. -/
def OpensslString.from_ptr (p : Ptr (List Nat)) : OpensslString := ⟨p⟩

/-- `Asn1StringRef::as_utf8`: calls `ASN1_STRING_to_UTF8(&mut ptr, self)`.
`nativeLen` is the length the native conversion returns and `nativeBuf` the
buffer pointer it writes; a negative length returns the error stack, otherwise
the newly allocated buffer is owned as an `OpensslString`. -/
def Asn1StringRef.as_utf8 (nativeLen : Int) (nativeBuf : Ptr (List Nat))
    (st : ErrorStack) : Except ErrorStack OpensslString :=
  if nativeLen < 0 then Except.error st
  else Except.ok (OpensslString.from_ptr nativeBuf)

/-! ## ASN1_OBJECT -/

/-- Native content of an `ASN1_OBJECT` (an OID): its full textual form — the
dotted-numeric or registered name the native renderer would produce given an
unbounded buffer — as a byte list. -/
structure ObjContent where
  form : List Nat
  deriving DecidableEq

/-- The owning `Asn1Object` value generated by the `type_!` macro: it holds
whatever raw pointer it was wrapped around. -/
structure Asn1Object where
  ptr : Ptr ObjContent
  deriving DecidableEq

/-- `Asn1Object::from_ptr` (from the `type_!` macro): wraps the raw pointer
unconditionally; no null check. -/
def Asn1Object.from_ptr (p : Ptr ObjContent) : Asn1Object := ⟨p⟩

/-- `Asn1Object::new`: `Asn1Object::from_ptr(ASN1_OBJECT_new())`.  The native
allocator's result (possibly null on failure) enters as `nativeResult`; it is
wrapped without any check. -/
def Asn1Object.new (nativeResult : Ptr ObjContent) : Asn1Object :=
  Asn1Object.from_ptr nativeResult

/-- `<Asn1Object as Clone>::clone`: `Asn1Object::from_ptr(OBJ_dup(self.as_ptr()))`.
The native duplication result (possibly null on failure) enters as `dupResult`;
it is wrapped without any check, and the signature has no error variant. -/
def Asn1Object.clone (_self : Asn1Object) (dupResult : Ptr ObjContent) :
    Asn1Object :=
  Asn1Object.from_ptr dupResult

/-- Modelled from the spec: `Nid` (`nid.rs`, not under `src/`) is a well-known
symbolic identifier carrying its raw numeric encoding. -/
structure Nid where
  raw : Int
  deriving DecidableEq

/-- Modelled from the spec: `Nid::as_raw` exposes the raw numeric encoding. -/
def Nid.as_raw (n : Nid) : Int := n.raw

/-- Modelled from the spec: `Nid::from_raw` builds the identifier from its raw
numeric encoding. -/
def Nid.from_raw (r : Int) : Nid := ⟨r⟩

/-- Modelled from the spec: the native sentinel `NID_undef`. -/
def NID_undef : Int := 0

/-- Modelled from the spec: the native symbolic-identifier registry.  `toObj`
is `OBJ_nid2obj` (null for an unrecognized identifier); `toNid` is
`OBJ_obj2nid` (the `NID_undef` sentinel for an unrecognized OID). -/
structure NidRegistry where
  toObj : Int → Ptr ObjContent
  toNid : ObjContent → Int

/-- Modelled from the spec: native `OBJ_nid2obj` resolves a raw identifier to
an OID handle, null when unrecognized. -/
def OBJ_nid2obj (reg : NidRegistry) (n : Int) : Ptr ObjContent := reg.toObj n

/-- Modelled from the spec: native `OBJ_obj2nid` reverse-maps an OID to a raw
identifier, `NID_undef` when unrecognized. -/
def OBJ_obj2nid (reg : NidRegistry) (o : ObjContent) : Int := reg.toNid o

/-- Modelled from the spec: the registry "recognizes exactly" — whenever the
forward lookup produced an OID for identifier `n`, the reverse map on that OID
gives back `n`. -/
def NidRegistry.Exact (reg : NidRegistry) : Prop :=
  ∀ (n : Int) (o : ObjContent), reg.toObj n = Ptr.handle o → reg.toNid o = n

/-- `Asn1Object::from_nid`:
`cvt_p(OBJ_nid2obj(nid.as_raw())).map(Asn1Object::from_ptr)`. -/
def Asn1Object.from_nid (reg : NidRegistry) (n : Nid) (st : ErrorStack) :
    Except ErrorStack Asn1Object :=
  (cvt_p (OBJ_nid2obj reg (Nid.as_raw n)) st).map
    (fun o => Asn1Object.from_ptr (Ptr.handle o))

/-- `Asn1ObjectRef::nid`: maps the native `NID_undef` sentinel to `none` and
every other reverse-map result to `some (Nid::from_raw ..)`. -/
def Asn1ObjectRef.nid (reg : NidRegistry) (o : ObjContent) : Option Nid :=
  let n := OBJ_obj2nid reg o
  if n = NID_undef then none else some (Nid.from_raw n)

/-- Modelled from the spec: native `OBJ_obj2txt` renders the OID's textual
form into a buffer of `bufLen` bytes, truncating lossily to `bufLen - 1`
content bytes plus a null terminator, and returns the full form's length. -/
def OBJ_obj2txt (o : ObjContent) (bufLen : Nat) : List Nat × Int :=
  (o.form.take (bufLen - 1) ++ [0], (o.form.length : Int))

/-- Modelled from the spec: `CStr::from_ptr` interprets a buffer as a
null-terminated string — the bytes strictly before the first 0. -/
def cstrBytes (l : List Nat) : List Nat := l.takeWhile (fun b => b != 0)

/-- A continuation byte of a UTF-8 sequence. -/
def isCont (b : Nat) : Bool := 0x80 ≤ b && b ≤ 0xBF

/-- Modelled from the spec: the UTF-8 validity check performed by the standard
library's byte-to-string conversion that `CStr::to_str` runs. -/
def utf8Valid : List Nat → Bool
  | [] => true
  | b :: rest =>
    if b ≤ 0x7F then utf8Valid rest
    else if 0xC2 ≤ b && b ≤ 0xDF then
      match rest with
      | c1 :: r => isCont c1 && utf8Valid r
      | [] => false
    else if b == 0xE0 then
      match rest with
      | c1 :: c2 :: r => (0xA0 ≤ c1 && c1 ≤ 0xBF) && isCont c2 && utf8Valid r
      | _ => false
    else if (0xE1 ≤ b && b ≤ 0xEC) || b == 0xEE || b == 0xEF then
      match rest with
      | c1 :: c2 :: r => isCont c1 && isCont c2 && utf8Valid r
      | _ => false
    else if b == 0xED then
      match rest with
      | c1 :: c2 :: r => (0x80 ≤ c1 && c1 ≤ 0x9F) && isCont c2 && utf8Valid r
      | _ => false
    else if b == 0xF0 then
      match rest with
      | c1 :: c2 :: c3 :: r =>
        (0x90 ≤ c1 && c1 ≤ 0xBF) && isCont c2 && isCont c3 && utf8Valid r
      | _ => false
    else if 0xF1 ≤ b && b ≤ 0xF3 then
      match rest with
      | c1 :: c2 :: c3 :: r => isCont c1 && isCont c2 && isCont c3 && utf8Valid r
      | _ => false
    else if b == 0xF4 then
      match rest with
      | c1 :: c2 :: c3 :: r =>
        (0x80 ≤ c1 && c1 ≤ 0x8F) && isCont c2 && isCont c3 && utf8Valid r
      | _ => false
    else false

/-- `Asn1ObjectRef::text`: renders into an 80-byte buffer via `OBJ_obj2txt`,
reads it back as a null-terminated C string, and converts to `&str` with
`.to_str().unwrap()`.  The return type is `&str` — there is no error variant;
`none` models the panic of `unwrap` on invalid UTF-8. -/
def Asn1ObjectRef.text (o : ObjContent) : Option (List Nat) :=
  let buf := (OBJ_obj2txt o 80).1
  let bytes := cstrBytes buf
  if utf8Valid bytes then some bytes else none

/-- `<Asn1ObjectRef as Display>::fmt`: `fmt.write_str(self.text())` — the
rendering written by `Display` is exactly `text()` (and it inherits `text`'s
panic on invalid UTF-8). -/
def Asn1ObjectRef.display (o : ObjContent) : Option (List Nat) :=
  Asn1ObjectRef.text o

/-! ## ASN1_OCTET_STRING -/

/-- The owning `Asn1OctetString` value generated by the `type_!` macro. -/
structure Asn1OctetString where
  ptr : Ptr (List Nat)
  deriving DecidableEq

/-- `Asn1OctetString::from_ptr` (from the `type_!` macro): wraps the raw
pointer unconditionally; no null check. -/
def Asn1OctetString.from_ptr (p : Ptr (List Nat)) : Asn1OctetString := ⟨p⟩

/-- `<Asn1OctetString as Clone>::clone`:
`Asn1OctetString::from_ptr(ASN1_OCTET_STRING_dup(self.as_ptr()))`.  The native
duplication result (possibly null) enters as `dupResult`; it is wrapped without
any check, and the signature has no error variant. -/
def Asn1OctetString.clone (_self : Asn1OctetString) (dupResult : Ptr (List Nat)) :
    Asn1OctetString :=
  Asn1OctetString.from_ptr dupResult

/-! ## ASN1_TIME -/

/-- Native content of an `ASN1_TIME`: the moment it denotes, as seconds since
the epoch. -/
structure Asn1TimeNative where
  time : Int
  deriving DecidableEq

/-- The owning `Asn1Time` value generated by the `type_!` macro. -/
structure Asn1Time where
  ptr : Ptr Asn1TimeNative
  deriving DecidableEq

/-- `Asn1Time::from_ptr` (from the `type_!` macro). -/
def Asn1Time.from_ptr (p : Ptr Asn1TimeNative) : Asn1Time := ⟨p⟩

/-- Modelled from the spec: native `X509_gmtime_adj(NULL, offset)` returns a
fresh time handle denoting `offset` seconds from the current time `now`, or
null on failure (oracle flag `ok`). -/
def X509_gmtime_adj (now : Int) (offset : Int) (ok : Bool) : Ptr Asn1TimeNative :=
  if ok then Ptr.handle ⟨now + offset⟩ else Ptr.null

/-- `Asn1Time::from_period`:
`cvt_p(X509_gmtime_adj(null, period)).map(Asn1Time::from_ptr)` (the `ffi::init()`
call has no observable effect at this layer). -/
def Asn1Time.from_period (now : Int) (ok : Bool) (st : ErrorStack)
    (period : Int) : Except ErrorStack Asn1Time :=
  (cvt_p (X509_gmtime_adj now period ok) st).map
    (fun h => Asn1Time.from_ptr (Ptr.handle h))

/-- `Asn1Time::days_from_now`: `Asn1Time::from_period(days as c_long * 60 * 60 * 24)`.
`days` is a `u32`; the arithmetic happens in the 64-bit `c_long`. -/
def Asn1Time.days_from_now (now : Int) (ok : Bool) (st : ErrorStack)
    (days : Nat) : Except ErrorStack Asn1Time :=
  Asn1Time.from_period now ok st (wrap64 ((days : Int) * 60 * 60 * 24))

/-! ## A concrete registry instance, for witnesses -/

/-- The ASCII bytes of the string `commonName`. -/
def commonNameForm : List Nat := [99, 111, 109, 109, 111, 110, 78, 97, 109, 101]

/-- A concrete registry knowing exactly one identifier: raw encoding 13
(`commonName` in the native library's numbering). -/
def exampleRegistry : NidRegistry where
  toObj n := if n = 13 then Ptr.handle ⟨commonNameForm⟩ else Ptr.null
  toNid o := if o = ⟨commonNameForm⟩ then 13 else NID_undef

/-! ## Helper lemmas -/

theorem wrap64_eq_of_bounds (v : Int) (h1 : -(2 ^ 63) ≤ v) (h2 : v < 2 ^ 63) :
    wrap64 v = v := by
  unfold wrap64
  have h64 : (2 : Int) ^ 64 = 18446744073709551616 := by norm_num
  have h63 : (2 : Int) ^ 63 = 9223372036854775808 := by norm_num
  rw [h64, h63]
  rw [h63] at h1 h2
  omega

theorem cstrBytes_append_zero_length_le (l : List Nat) :
    (cstrBytes (l ++ [0])).length ≤ l.length := by
  induction l with
  | nil => simp [cstrBytes, List.takeWhile]
  | cons a t ih =>
    by_cases ha : (a != 0) = true
    · simp only [cstrBytes, List.cons_append, List.takeWhile_cons, ha, if_true,
        List.length_cons] at *
      omega
    · simp [cstrBytes, List.takeWhile_cons, ha]

theorem cstrBytes_append_zero_of_ne (l : List Nat) (h : ∀ b ∈ l, b ≠ 0) :
    cstrBytes (l ++ [0]) = l := by
  induction l with
  | nil => simp [cstrBytes, List.takeWhile]
  | cons a t ih =>
    have ha : a ≠ 0 := h a (List.mem_cons_self a t)
    have ht : ∀ b ∈ t, b ≠ 0 := fun b hb => h b (List.mem_cons_of_mem a hb)
    simp only [cstrBytes, List.cons_append, List.takeWhile_cons] at *
    simp [ha, ih ht]

/-! ## Claim theorems -/

/-- C2: for every value in the 32-bit signed range, if `Asn1IntegerRef::set(v)`
succeeds, a subsequent `Asn1IntegerRef::get()` on the same integer returns `v`
as a 64-bit signed value. -/
theorem integer_set_then_get (s : Asn1IntegerNative) (v : Int) (ok : Bool)
    (st : ErrorStack) (s2 : Asn1IntegerNative)
    (hlo : -(2 ^ 31) ≤ v) (hhi : v < 2 ^ 31)
    (hset : Asn1IntegerRef.set s v ok st = Except.ok s2) :
    Asn1IntegerRef.get s2 = v := by
  cases ok with
  | false =>
    simp [Asn1IntegerRef.set, ASN1_INTEGER_set, cvt, Except.map] at hset
  | true =>
    simp only [Asn1IntegerRef.set, ASN1_INTEGER_set, if_true, cvt, Except.map] at hset
    norm_num at hset
    rw [← hset]
    show wrap64 v = v
    have hb1 : -(2 ^ 63) ≤ v := le_trans (by norm_num) hlo
    have hb2 : v < 2 ^ 63 := lt_of_lt_of_le hhi (by norm_num)
    exact wrap64_eq_of_bounds v hb1 hb2

/-- C2 witness: `set(42)` succeeds on a fresh integer and `get` then returns 42. -/
theorem integer_set_then_get_witness :
    Asn1IntegerRef.get { value := wrap64 42 } = 42 :=
  integer_set_then_get { value := 0 } 42 true { codes := [] } { value := wrap64 42 }
    (by norm_num) (by norm_num) rfl

/-- C3: if `set_bit(n, true)` succeeds then `get_bit(n)` returns true; if
`set_bit(n, false)` succeeds then `get_bit(n)` returns false; and `get_bit`
maps a nonzero native result to true and zero to false. -/
theorem bitstring_set_then_get (s : Asn1BitStringNative) (n : Int) (ok : Bool)
    (st : ErrorStack) :
    (∀ s1, Asn1BitStringRef.set_bit s n true ok st = Except.ok s1 →
        Asn1BitStringRef.get_bit s1 n = true) ∧
    (∀ s1, Asn1BitStringRef.set_bit s n false ok st = Except.ok s1 →
        Asn1BitStringRef.get_bit s1 n = false) ∧
    (Asn1BitStringRef.get_bit s n = true ↔ ASN1_BIT_STRING_get_bit s n ≠ 0) := by
  refine ⟨?_, ?_, ?_⟩
  · intro s1 hset
    by_cases hc : ok = true ∧ 0 ≤ n
    · simp only [Asn1BitStringRef.set_bit, ASN1_BIT_STRING_set_bit, hc, if_true,
        cvt, Except.map] at hset
      norm_num at hset
      rw [← hset]
      simp [Asn1BitStringRef.get_bit, ASN1_BIT_STRING_get_bit, hc.2]
    · simp [Asn1BitStringRef.set_bit, ASN1_BIT_STRING_set_bit, hc, cvt,
        Except.map] at hset
  · intro s1 hset
    by_cases hc : ok = true ∧ 0 ≤ n
    · simp only [Asn1BitStringRef.set_bit, ASN1_BIT_STRING_set_bit, hc, if_true,
        cvt, Except.map] at hset
      norm_num at hset
      rw [← hset]
      simp only [Asn1BitStringRef.get_bit, ASN1_BIT_STRING_get_bit]
      have hnot : n ∉ s.bits.filter (fun m => m != n) := by
        intro hmem
        have := List.of_mem_filter hmem
        simp at this
      simp [hnot]
    · simp [Asn1BitStringRef.set_bit, ASN1_BIT_STRING_set_bit, hc, cvt,
        Except.map] at hset
  · simp [Asn1BitStringRef.get_bit]

/-- C3 witness: on an empty bit string, `set_bit(3, true)` succeeds and
`get_bit(3)` then returns true; clearing it again makes `get_bit(3)` false. -/
theorem bitstring_set_then_get_witness :
    Asn1BitStringRef.get_bit { bits := ((3 : Int) :: []) } 3 = true ∧
    Asn1BitStringRef.get_bit { bits := (((3 : Int) :: []).filter (fun m => m != 3)) } 3 = false :=
  ⟨(bitstring_set_then_get { bits := [] } 3 true { codes := [] }).1
      { bits := ((3 : Int) :: []) } rfl,
    (bitstring_set_then_get { bits := ((3 : Int) :: []) } 3 true { codes := [] }).2.1
      { bits := (((3 : Int) :: []).filter (fun m => m != 3)) } rfl⟩

/-- C4: `Asn1StringRef::as_utf8` returns the error-stack snapshot if and only
if the native UTF-8 conversion returned a negative length; otherwise it
succeeds, taking ownership of the newly allocated buffer. -/
theorem as_utf8_error_iff_negative (l : Int) (p : Ptr (List Nat))
    (st : ErrorStack) :
    (Asn1StringRef.as_utf8 l p st = Except.error st ↔ l < 0) ∧
    (Asn1StringRef.as_utf8 l p st = Except.ok (OpensslString.from_ptr p) ↔
      ¬ l < 0) := by
  unfold Asn1StringRef.as_utf8
  by_cases h : l < 0 <;> simp [h]

/-- C9: the byte view returned by `Asn1StringRef::as_slice` has length exactly
`Asn1StringRef::len()`, and `len` is computed from the native handle's current
length field on every call (no caching). -/
theorem as_slice_length_eq_len (s : Asn1StringNative) :
    (Asn1StringRef.as_slice s).length = Asn1StringRef.len s ∧
    Asn1StringRef.len s = usizeCast (ASN1_STRING_length s) := by
  constructor
  · simp [Asn1StringRef.as_slice, readBytes]
  · rfl

/-- C5: `Asn1Object::from_nid` fails with a structured error if and only if
the native `OBJ_nid2obj` lookup returns a null handle; when the identifier is
recognized, it wraps the returned handle as an owning value. -/
theorem from_nid_error_iff_null (reg : NidRegistry) (n : Nid) (st : ErrorStack) :
    (Asn1Object.from_nid reg n st = Except.error st ↔
      OBJ_nid2obj reg (Nid.as_raw n) = Ptr.null) ∧
    (∀ c, OBJ_nid2obj reg (Nid.as_raw n) = Ptr.handle c →
      Asn1Object.from_nid reg n st =
        Except.ok (Asn1Object.from_ptr (Ptr.handle c))) := by
  constructor
  · unfold Asn1Object.from_nid cvt_p
    cases hr : OBJ_nid2obj reg (Nid.as_raw n) <;> simp [Except.map]
  · intro c hc
    unfold Asn1Object.from_nid
    rw [hc]
    rfl

/-- C5 witness: in the concrete registry, identifier 13 is recognized and
`from_nid` wraps the returned handle. -/
theorem from_nid_error_iff_null_witness :
    Asn1Object.from_nid exampleRegistry { raw := 13 } { codes := [] } =
      Except.ok (Asn1Object.from_ptr (Ptr.handle { form := commonNameForm })) :=
  (from_nid_error_iff_null exampleRegistry { raw := 13 } { codes := [] }).2
    { form := commonNameForm } rfl

/-- C6: `Asn1ObjectRef::nid` returns `none`, not an error, exactly when the
native reverse map returns the `NID_undef` sentinel; for every other native
result it returns the corresponding identifier; and, for a registry that
recognizes exactly, a recognized identifier round-trips through `from_nid`
followed by `nid`. -/
theorem nid_none_iff_undef (reg : NidRegistry) (o : ObjContent) :
    (Asn1ObjectRef.nid reg o = none ↔ OBJ_obj2nid reg o = NID_undef) ∧
    (OBJ_obj2nid reg o ≠ NID_undef →
      Asn1ObjectRef.nid reg o = some (Nid.from_raw (OBJ_obj2nid reg o))) ∧
    (∀ (i : Nid) (st : ErrorStack) (c : ObjContent),
      NidRegistry.Exact reg → Nid.as_raw i ≠ NID_undef →
      OBJ_nid2obj reg (Nid.as_raw i) = Ptr.handle c →
      Asn1Object.from_nid reg i st =
        Except.ok (Asn1Object.from_ptr (Ptr.handle c)) ∧
      Asn1ObjectRef.nid reg c = some i) := by
  refine ⟨?_, ?_, ?_⟩
  · unfold Asn1ObjectRef.nid
    by_cases h : OBJ_obj2nid reg o = NID_undef <;> simp [h]
  · intro h
    unfold Asn1ObjectRef.nid
    simp [h]
  · intro i st c hex hraw hc
    constructor
    · unfold Asn1Object.from_nid
      rw [hc]
      rfl
    · have hrev : reg.toNid c = Nid.as_raw i := hex (Nid.as_raw i) c hc
      show (if reg.toNid c = NID_undef then none
        else some (Nid.from_raw (reg.toNid c))) = some i
      rw [hrev, if_neg hraw]
      rfl

/-- C6 witness: in the concrete registry, identifier 13 (`commonName`)
round-trips: `from_nid` yields the handle for the `commonName` OID, and `nid`
on that OID gives back identifier 13. -/
theorem nid_none_iff_undef_witness :
    Asn1Object.from_nid exampleRegistry { raw := 13 } { codes := [0] } =
      Except.ok (Asn1Object.from_ptr (Ptr.handle { form := commonNameForm })) ∧
    Asn1ObjectRef.nid exampleRegistry { form := commonNameForm } =
      some { raw := 13 } := by
  have hex : NidRegistry.Exact exampleRegistry := by
    intro n o h
    simp only [exampleRegistry] at h
    split at h
    next hn =>
      injection h with h2
      rw [← h2, hn]
      simp [exampleRegistry]
    next => exact Ptr.noConfusion h
  exact (nid_none_iff_undef exampleRegistry { form := commonNameForm }).2.2
    { raw := 13 } { codes := [0] } { form := commonNameForm } hex
    (by decide) rfl

/-- C7: `Asn1ObjectRef::text` renders into a fixed 80-byte buffer read back as
a null-terminated string, so any produced text is shorter than 80 bytes; a
textual form longer than the buffer is truncated lossily to its first 79
bytes rather than grown or reported as an error; and the `Display` rendering
equals `text()`. -/
theorem text_truncates (o : ObjContent) :
    (∀ s, Asn1ObjectRef.text o = some s → s.length < 80) ∧
    ((∀ b ∈ o.form, b ≠ 0) → utf8Valid (o.form.take 79) = true →
      Asn1ObjectRef.text o = some (o.form.take 79)) ∧
    Asn1ObjectRef.display o = Asn1ObjectRef.text o := by
  refine ⟨?_, ?_, rfl⟩
  · intro s hs
    simp only [Asn1ObjectRef.text, OBJ_obj2txt] at hs
    split at hs
    · have hs2 : cstrBytes (o.form.take (80 - 1) ++ [0]) = s :=
        Option.some.inj hs
      have h1 : (cstrBytes (o.form.take (80 - 1) ++ [0])).length ≤
          (o.form.take (80 - 1)).length :=
        cstrBytes_append_zero_length_le _
      have h2 : (o.form.take (80 - 1)).length ≤ 80 - 1 :=
        List.length_take_le (80 - 1) o.form
      rw [hs2] at h1
      omega
    · exact Option.noConfusion hs
  · intro hnz hval
    have hnz79 : ∀ b ∈ o.form.take 79, b ≠ 0 :=
      fun b hb => hnz b (List.take_subset 79 o.form hb)
    simp only [Asn1ObjectRef.text, OBJ_obj2txt]
    rw [show (80 - 1 : Nat) = 79 from rfl,
      cstrBytes_append_zero_of_ne (o.form.take 79) hnz79, hval]
    simp

/-- C7 witness: a 100-byte textual form (100 times the byte of `a`) is
truncated by `text` to its first 79 bytes, which are fewer than 80. -/
theorem text_truncates_witness :
    Asn1ObjectRef.text { form := List.replicate 100 97 } =
      some ((List.replicate 100 97).take 79) ∧
    ((List.replicate 100 97).take 79).length < 80 := by
  have h := text_truncates { form := List.replicate 100 97 }
  have h2 := h.2.1 (by decide) (by decide)
  exact ⟨h2, h.1 _ h2⟩

/-- C8: `days_from_now(days)` passes an offset of exactly
`days * 60 * 60 * 24` seconds to the native gmtime-adjust call (the `u32`
input never overflows the 64-bit `long`), fails exactly when the native call
returns null, and on success denotes the current time plus that offset — so
0 days gives the current time and 365 days gives a time one year later. -/
theorem days_from_now_offset (now : Int) (ok : Bool) (st : ErrorStack)
    (days : Nat) (hd : days < 2 ^ 32) :
    wrap64 ((days : Int) * 60 * 60 * 24) = (days : Int) * 86400 ∧
    (Asn1Time.days_from_now now ok st days = Except.error st ↔ ok = false) ∧
    (ok = true → Asn1Time.days_from_now now ok st days =
      Except.ok (Asn1Time.from_ptr
        (Ptr.handle { time := now + (days : Int) * 86400 }))) := by
  have hd' : (days : Int) < 2 ^ 32 := by exact_mod_cast hd
  have hw : wrap64 ((days : Int) * 60 * 60 * 24) = (days : Int) * 86400 := by
    have h1 : ((days : Int) * 60 * 60 * 24) = (days : Int) * 86400 := by ring
    rw [h1]
    apply wrap64_eq_of_bounds
    · have h0 : (0 : Int) ≤ (days : Int) * 86400 := by positivity
      have : -(2 ^ 63 : Int) ≤ 0 := by norm_num
      omega
    · have hmul : (days : Int) * 86400 < 2 ^ 32 * 86400 :=
        mul_lt_mul_of_pos_right hd' (by norm_num)
      calc (days : Int) * 86400 < 2 ^ 32 * 86400 := hmul
        _ < 2 ^ 63 := by norm_num
  refine ⟨hw, ?_, ?_⟩
  · cases ok <;>
      simp [Asn1Time.days_from_now, Asn1Time.from_period, X509_gmtime_adj,
        cvt_p, Except.map]
  · intro hok
    subst hok
    simp [Asn1Time.days_from_now, Asn1Time.from_period, X509_gmtime_adj,
      cvt_p, Except.map, hw, Asn1Time.from_ptr]

/-- C8 witness: with the current time at 1000 seconds, `days_from_now(365)`
succeeds and denotes `1000 + 365 * 86400` seconds, one year later. -/
theorem days_from_now_offset_witness :
    Asn1Time.days_from_now 1000 true { codes := [] } 365 =
      Except.ok (Asn1Time.from_ptr
        (Ptr.handle { time := 1000 + ((365 : Nat) : Int) * 86400 })) :=
  (days_from_now_offset 1000 true { codes := [] } 365 (by norm_num)).2.2 rfl

/-- C10: `Asn1ObjectRef::text` has no error path — its result type carries no
structured failure — and when the bytes left in the 80-byte buffer are not
valid UTF-8 the `unwrap` on the conversion panics (modelled as `none`) instead
of returning a structured failure. -/
theorem text_panics_on_invalid_utf8 (o : ObjContent)
    (h : utf8Valid (cstrBytes ((OBJ_obj2txt o 80).1)) = false) :
    Asn1ObjectRef.text o = none := by
  simp only [Asn1ObjectRef.text]
  rw [h]
  simp

/-- C10 witness: a textual form consisting of the single byte 255 is not valid
UTF-8, so `text` panics (no structured error is produced). -/
theorem text_panics_on_invalid_utf8_witness :
    Asn1ObjectRef.text { form := [255] } = none :=
  text_panics_on_invalid_utf8 { form := [255] } (by decide)

/-- C1 counterexample: at the concrete failure sentinel `Ptr.null`,
`Asn1Object::new`, `<Asn1Object as Clone>::clone` and
`<Asn1OctetString as Clone>::clone` do not return an error (their return types
have no error variant at all): each wraps the null sentinel into an owning
value, silently swallowing the native failure signal. -/
theorem new_and_clone_wrap_null_sentinel :
    (Asn1Object.new Ptr.null).ptr = Ptr.null ∧
    (Asn1Object.clone (Asn1Object.from_ptr Ptr.null) Ptr.null).ptr = Ptr.null ∧
    (Asn1OctetString.clone (Asn1OctetString.from_ptr Ptr.null) Ptr.null).ptr =
      Ptr.null :=
  ⟨rfl, rfl, rfl⟩

/-- C1 (amended): every operation of this file whose signature returns a
result propagates the native failure sentinel as a structured error carrying
the error-stack snapshot — `from_nid` on a null handle, `as_utf8` on a
negative length, `set` and `set_bit` on a non-positive return code,
`from_period` on a null handle — but `Asn1Object::new` and the `Clone`
implementations for `Asn1Object` and `Asn1OctetString` have no error variant
and wrap the native result unchecked, so a null handle is silently wrapped. -/
theorem result_ops_propagate_unchecked_ops_wrap :
    (∀ (reg : NidRegistry) (n : Nid) (st : ErrorStack),
      Asn1Object.from_nid reg n st = Except.error st ↔
        OBJ_nid2obj reg (Nid.as_raw n) = Ptr.null) ∧
    (∀ (l : Int) (p : Ptr (List Nat)) (st : ErrorStack),
      Asn1StringRef.as_utf8 l p st = Except.error st ↔ l < 0) ∧
    (∀ (s : Asn1IntegerNative) (v : Int) (ok : Bool) (st : ErrorStack),
      Asn1IntegerRef.set s v ok st = Except.error st ↔ ok = false) ∧
    (∀ (s : Asn1BitStringNative) (n : Int) (value ok : Bool) (st : ErrorStack),
      Asn1BitStringRef.set_bit s n value ok st = Except.error st ↔
        (ok = false ∨ n < 0)) ∧
    (∀ (now period : Int) (ok : Bool) (st : ErrorStack),
      Asn1Time.from_period now ok st period = Except.error st ↔ ok = false) ∧
    (∀ p, Asn1Object.new p = Asn1Object.from_ptr p) ∧
    (∀ o p, Asn1Object.clone o p = Asn1Object.from_ptr p) ∧
    (∀ o p, Asn1OctetString.clone o p = Asn1OctetString.from_ptr p) := by
  refine ⟨?_, ?_, ?_, ?_, ?_, fun p => rfl, fun o p => rfl, fun o p => rfl⟩
  · intro reg n st
    unfold Asn1Object.from_nid cvt_p
    cases hr : OBJ_nid2obj reg (Nid.as_raw n) <;> simp [Except.map]
  · intro l p st
    unfold Asn1StringRef.as_utf8
    by_cases h : l < 0 <;> simp [h]
  · intro s v ok st
    cases ok <;>
      simp [Asn1IntegerRef.set, ASN1_INTEGER_set, cvt, Except.map]
  · intro s n value ok st
    by_cases hc : ok = true ∧ 0 ≤ n
    · have hne : Asn1BitStringRef.set_bit s n value ok st ≠ Except.error st := by
        simp only [Asn1BitStringRef.set_bit, ASN1_BIT_STRING_set_bit, hc, if_true,
          cvt, Except.map]
        norm_num
        intro h
        exact Except.noConfusion h
      have hnor : ¬ (ok = false ∨ n < 0) := by
        rcases hc with ⟨h1, h2⟩
        rintro (h | h)
        · rw [h1] at h
          exact Bool.noConfusion h
        · omega
      constructor
      · intro h
        exact absurd h hne
      · intro h
        exact absurd h hnor
    · have herr : Asn1BitStringRef.set_bit s n value ok st = Except.error st := by
        simp only [Asn1BitStringRef.set_bit, ASN1_BIT_STRING_set_bit, hc, if_false,
          cvt, Except.map]
        norm_num
      have hor : ok = false ∨ n < 0 := by
        cases hok : ok with
        | false => exact Or.inl rfl
        | true =>
          subst hok
          have hn0 : ¬ 0 ≤ n := fun hn0 => hc ⟨rfl, hn0⟩
          exact Or.inr (by omega)
      rw [herr]
      simp [hor]
  · intro now period ok st
    cases ok <;>
      simp [Asn1Time.from_period, X509_gmtime_adj, cvt_p, Except.map]

end OpensslAsn1
